import Mathlib

/-!
Verification of the saam runtime ownership-and-borrowing core.

The definitions below are a shallow embedding of the C++ sources under
`src/include/saam/`.  Machine integers (`std::size_t`, `std::int64_t`) are
modelled as `Nat` / `Int`; pointers are modelled as optional identifiers
(`Option Nat`, `none` = `nullptr`); the effect of the tracking strategies on
their per-owner state is modelled by explicit state passing, and the calls a
strategy makes to the global panic hook are returned as data.
-/

namespace Saam

/-!
## Counted borrow manager
Embedding of `saam::counted_borrow_manager`
(`src/include/saam/detail/counted_borrow_manager.hpp`).

The manager holds one `std::atomic<std::size_t> counter_`.
`register_reference` is `counter_++`, `unregister_reference` is `counter_--`
with the assertion that the pre-decrement value was positive, and
`verify_dangling_references` is a compare-and-swap of `0` to
`std::numeric_limits<std::size_t>::max()`; when the swap fails the panic hook
receives the type, the instance address and `counter_.load()`, and the
process is aborted.
-/

/-- `std::numeric_limits<std::size_t>::max()` on a 64-bit platform: the value
the counter is closed with, so that no more borrows are allowed. -/
def sentinel_max : Nat := 2 ^ 64 - 1

/-- State of one `counted_borrow_manager`: the atomic counter. -/
structure counted_borrow_manager where
  counter_ : Nat
deriving DecidableEq, Repr

/-- `counted_borrow_manager::register_reference`: `counter_++`. -/
def register_reference (m : counted_borrow_manager) : counted_borrow_manager :=
  ⟨m.counter_ + 1⟩

/-- `counted_borrow_manager::unregister_reference`: `counter_--`.  The source
asserts that the pre-decrement value was positive; traces satisfying
`counted_valid_from` never violate that assertion. -/
def unregister_reference (m : counted_borrow_manager) : counted_borrow_manager :=
  ⟨m.counter_ - 1⟩

/-- One registration or unregistration event on a counted manager. -/
inductive counted_event
  | register
  | unregister
deriving DecidableEq, Repr

/-- Apply one event to the counter. -/
def counted_apply : counted_borrow_manager → counted_event → counted_borrow_manager
  | m, .register => register_reference m
  | m, .unregister => unregister_reference m

/-- Apply a sequence of events to the counter, oldest first. -/
def counted_apply_all (m : counted_borrow_manager) (es : List counted_event) :
    counted_borrow_manager :=
  es.foldl counted_apply m

/-- The `assert(prev_value > 0)` of `unregister_reference`, lifted to a trace:
starting from count `c`, no unregistration ever meets a zero counter. -/
def counted_valid_from (c : Nat) : List counted_event → Bool
  | [] => true
  | .register :: es => counted_valid_from (c + 1) es
  | .unregister :: es => decide (0 < c) && counted_valid_from (c - 1) es

/-- Number of `register` events in a trace. -/
def num_registers : List counted_event → Nat
  | [] => 0
  | .register :: es => num_registers es + 1
  | .unregister :: es => num_registers es

/-- Number of `unregister` events in a trace. -/
def num_unregisters : List counted_event → Nat
  | [] => 0
  | .register :: es => num_unregisters es
  | .unregister :: es => num_unregisters es + 1

/-- The arguments `dangling_reference_panic` receives from the counted
manager: the owner's type, the instance address and the outstanding count. -/
structure counted_panic_call where
  var_type : Nat
  var_instance : Nat
  num_dangling_references : Nat
deriving DecidableEq, Repr

/-- Result of `counted_borrow_manager::verify_dangling_references`:
whether the panic hook was invoked (and with what), whether `abort()` was
reached, and the state of the counter afterwards. -/
structure counted_verify_outcome where
  panic_call : Option counted_panic_call
  aborted : Bool
  final : counted_borrow_manager
deriving DecidableEq, Repr

/-- `counted_borrow_manager::verify_dangling_references`: compare-and-swap the
counter from `0` to `sentinel_max`; on failure invoke the panic hook with the
freshly loaded counter value and abort. -/
def verify_dangling_references (ty inst : Nat) (m : counted_borrow_manager) :
    counted_verify_outcome :=
  if m.counter_ = 0 then
    { panic_call := none, aborted := false, final := ⟨sentinel_max⟩ }
  else
    { panic_call := some ⟨ty, inst, m.counter_⟩, aborted := true, final := m }

theorem counted_apply_all_cons (m : counted_borrow_manager) (e : counted_event)
    (es : List counted_event) :
    counted_apply_all m (e :: es) = counted_apply_all (counted_apply m e) es := rfl

theorem counted_apply_all_counter (es : List counted_event) (c : Nat)
    (h : counted_valid_from c es = true) :
    (counted_apply_all ⟨c⟩ es).counter_ + num_unregisters es = c + num_registers es := by
  induction es generalizing c with
  | nil => simp [counted_apply_all, num_registers, num_unregisters]
  | cons e es ih =>
    cases e with
    | register =>
      have h' : counted_valid_from (c + 1) es = true := h
      have := ih (c + 1) h'
      simp only [counted_apply_all_cons, counted_apply, register_reference,
        num_registers, num_unregisters] at *
      omega
    | unregister =>
      simp only [counted_valid_from, Bool.and_eq_true, decide_eq_true_eq] at h
      have := ih (c - 1) h.2
      simp only [counted_apply_all_cons, counted_apply, unregister_reference,
        num_registers, num_unregisters] at *
      omega

/-- Claim C1: for a counted-strategy owner, destruction reports a
dangling-reference violation iff the registered-view count is nonzero at
verification time.  `verify_dangling_references` compare-and-swaps the counter
from `0` to the max-value sentinel; when the swap fails it invokes the panic
hook with the type, the instance address and the current outstanding count
and the process aborts; and for every valid registration/unregistration
trace netting to zero, no violation is reported and the hook is not invoked. -/
theorem counted_verify_reports_iff_outstanding
    (es : List counted_event) (ty inst : Nat)
    (hvalid : counted_valid_from 0 es = true)
    (hnet : num_registers es = num_unregisters es) :
    ((verify_dangling_references ty inst (counted_apply_all ⟨0⟩ es)).panic_call = none ∧
     (verify_dangling_references ty inst (counted_apply_all ⟨0⟩ es)).aborted = false ∧
     (verify_dangling_references ty inst (counted_apply_all ⟨0⟩ es)).final.counter_ =
       sentinel_max) ∧
    ∀ m : counted_borrow_manager,
      ((verify_dangling_references ty inst m).panic_call ≠ none ↔ m.counter_ ≠ 0) ∧
      ((verify_dangling_references ty inst m).aborted = true ↔ m.counter_ ≠ 0) ∧
      (m.counter_ ≠ 0 →
        (verify_dangling_references ty inst m).panic_call = some ⟨ty, inst, m.counter_⟩) := by
  have hzero : (counted_apply_all ⟨0⟩ es).counter_ = 0 := by
    have := counted_apply_all_counter es 0 hvalid
    omega
  constructor
  · simp [verify_dangling_references, hzero]
  · intro m
    by_cases hm : m.counter_ = 0 <;>
      simp [verify_dangling_references, hm]

/-- Witness for claim C1 at the concrete trace register-then-unregister. -/
theorem counted_verify_reports_iff_outstanding_witness :
    ((verify_dangling_references 7 42
        (counted_apply_all ⟨0⟩ [counted_event.register, counted_event.unregister])).panic_call =
          none ∧
     (verify_dangling_references 7 42
        (counted_apply_all ⟨0⟩ [counted_event.register, counted_event.unregister])).aborted =
          false ∧
     (verify_dangling_references 7 42
        (counted_apply_all ⟨0⟩
          [counted_event.register, counted_event.unregister])).final.counter_ =
          sentinel_max) ∧
    ∀ m : counted_borrow_manager,
      ((verify_dangling_references 7 42 m).panic_call ≠ none ↔ m.counter_ ≠ 0) ∧
      ((verify_dangling_references 7 42 m).aborted = true ↔ m.counter_ ≠ 0) ∧
      (m.counter_ ≠ 0 →
        (verify_dangling_references 7 42 m).panic_call = some ⟨7, 42, m.counter_⟩) :=
  counted_verify_reports_iff_outstanding
    [counted_event.register, counted_event.unregister] 7 42 (by decide) (by decide)

/-!
## Counted `ref_base`
Embedding of `saam::counted_borrow_manager::ref_base` and of the view layer
`saam::basic_ref` (`src/include/saam/detail/basic_ref.ipp`).

A reference holds a `borrow_manager_` pointer (`none` = `nullptr`,
unmanaged).  `register_self` / `unregister_self` forward to the pointed-to
manager when managed.  To reason about the transient behaviour of copy and
move, each operation additionally returns the ordered list of manager
operations it performed.
-/

/-- One call a `ref_base` makes into a manager, identified by its address. -/
inductive mgr_op
  | reg (mgr : Nat)
  | unreg (mgr : Nat)
deriving DecidableEq, Repr

/-- State of a `counted_borrow_manager::ref_base`: the `borrow_manager_`
pointer, `none` meaning `nullptr`. -/
structure counted_ref_base where
  borrow_manager_ : Option Nat
deriving DecidableEq, Repr

/-- `ref_base::is_managed`: the pointer is not null. -/
def counted_is_managed (r : counted_ref_base) : Bool :=
  r.borrow_manager_.isSome

/-- `ref_base::register_self`: if managed, `borrow_manager_->register_reference()`. -/
def counted_register_self (r : counted_ref_base) : List mgr_op :=
  match r.borrow_manager_ with
  | none => []
  | some m => [mgr_op.reg m]

/-- `ref_base::unregister_self`: if managed, `borrow_manager_->unregister_reference()`
and then `borrow_manager_ = nullptr`. -/
def counted_unregister_self (r : counted_ref_base) : counted_ref_base × List mgr_op :=
  match r.borrow_manager_ with
  | none => (r, [])
  | some m => (⟨none⟩, [mgr_op.unreg m])

/-- `ref_base::operator=(const ref_base &)`.  `same_object` models
`this == &other` (the self-assignment identity check); the body runs only
when the borrow manager actually changes. -/
def counted_ref_base_copy_assign (self other : counted_ref_base) (same_object : Bool) :
    counted_ref_base × List mgr_op :=
  if same_object then
    (self, [])
  else if self.borrow_manager_ ≠ other.borrow_manager_ then
    let (_r1, ops1) := counted_unregister_self self
    let r2 : counted_ref_base := ⟨other.borrow_manager_⟩
    (r2, ops1 ++ counted_register_self r2)
  else
    (self, [])

/-- `ref_base::ref_base(ref_base &&)`: the destination takes the source's
manager pointer, the source's pointer is nulled, and the counter is not
touched.  Returns (destination, source afterwards, manager operations). -/
def counted_ref_base_move_ctor (other : counted_ref_base) :
    counted_ref_base × counted_ref_base × List mgr_op :=
  (⟨other.borrow_manager_⟩, ⟨none⟩, [])

/-- `ref_base::~ref_base()`: `unregister_self()`. -/
def counted_ref_base_dtor (r : counted_ref_base) : List mgr_op :=
  (counted_unregister_self r).2

/-- State of a `basic_ref<T, counted_borrow_manager>`: the `instance_`
pointer of `basic_ref` plus the inherited `ref_base` state. -/
structure counted_ref where
  instance_ : Option Nat
  base : counted_ref_base
deriving DecidableEq, Repr

/-- `basic_ref::operator=(const basic_ref &)`: early-return on
self-assignment, otherwise copy `instance_` and delegate to
`ref_base::operator=`. -/
def counted_ref_copy_assign (self other : counted_ref) (same_object : Bool) :
    counted_ref × List mgr_op :=
  if same_object then
    (self, [])
  else
    let (b, ops) := counted_ref_base_copy_assign self.base other.base false
    (⟨other.instance_, b⟩, ops)

/-- `basic_ref::basic_ref(basic_ref &&)`: take the source's instance pointer
(nulling it) and move the `ref_base` part. -/
def counted_ref_move_ctor (other : counted_ref) :
    counted_ref × counted_ref × List mgr_op :=
  let (b, srcb, ops) := counted_ref_base_move_ctor other.base
  (⟨other.instance_, b⟩, ⟨none, srcb⟩, ops)

/-- Per-manager counters, indexed by manager address. -/
def mgr_world : Type := Nat → Nat

/-- Effect of one manager operation on the counters. -/
def apply_mgr_op (w : mgr_world) : mgr_op → mgr_world
  | .reg m => fun i => if i = m then w i + 1 else w i
  | .unreg m => fun i => if i = m then w i - 1 else w i

/-- Effect of a sequence of manager operations, oldest first. -/
def apply_mgr_ops (w : mgr_world) (ops : List mgr_op) : mgr_world :=
  ops.foldl apply_mgr_op w

/-- Claim C5: assigning a view to itself, and copy-assigning between two
views registered to the same owner's manager, performs no manager operation
at all: it never unregisters and then re-registers, so the counter never
transiently drops and a concurrent verification cannot observe a false zero. -/
theorem counted_copy_assign_same_manager_noop (self other : counted_ref)
    (hsame : self.base.borrow_manager_ = other.base.borrow_manager_) :
    (∀ b : Bool, (counted_ref_copy_assign self other b).2 = []) ∧
    (counted_ref_copy_assign self other true).1 = self ∧
    (counted_ref_copy_assign self other false).1 = ⟨other.instance_, self.base⟩ ∧
    ∀ (b : Bool) (w : mgr_world),
      apply_mgr_ops w (counted_ref_copy_assign self other b).2 = w := by
  have hops : ∀ b : Bool, (counted_ref_copy_assign self other b).2 = [] := by
    intro b
    cases b with
    | true => rfl
    | false =>
      simp [counted_ref_copy_assign, counted_ref_base_copy_assign, hsame]
  refine ⟨hops, rfl, ?_, ?_⟩
  · simp [counted_ref_copy_assign, counted_ref_base_copy_assign, hsame]
  · intro b w
    rw [hops b]
    rfl

/-- Witness for claim C5: two views of the same owner (manager at address 3). -/
theorem counted_copy_assign_same_manager_noop_witness :
    (∀ b : Bool,
      (counted_ref_copy_assign ⟨some 10, ⟨some 3⟩⟩ ⟨some 11, ⟨some 3⟩⟩ b).2 = []) ∧
    (counted_ref_copy_assign ⟨some 10, ⟨some 3⟩⟩ ⟨some 11, ⟨some 3⟩⟩ true).1 =
      ⟨some 10, ⟨some 3⟩⟩ ∧
    (counted_ref_copy_assign ⟨some 10, ⟨some 3⟩⟩ ⟨some 11, ⟨some 3⟩⟩ false).1 =
      ⟨some 11, ⟨some 3⟩⟩ ∧
    ∀ (b : Bool) (w : mgr_world),
      apply_mgr_ops w (counted_ref_copy_assign ⟨some 10, ⟨some 3⟩⟩ ⟨some 11, ⟨some 3⟩⟩ b).2 = w :=
  counted_copy_assign_same_manager_noop ⟨some 10, ⟨some 3⟩⟩ ⟨some 11, ⟨some 3⟩⟩ rfl

/-!
## Tracked borrow manager
Embedding of `saam::tracked_borrow_manager`
(`src/include/saam/detail/tracked_borrow_manager.hpp`).

The manager keeps a mutex-protected intrusive singly-linked list of the
active `ref_base` nodes, newest first (`register_ref` pushes at the head).
Each node carries the creation-time `std::stacktrace` snapshot, modelled as
an abstract `Nat`.  `verify_dangling_references` walks the chain and, if the
hook `dangling_reference_panic` is installed, invokes it once per surviving
node with an ascending index, the destruction-time stack and the node's
creation-time stack; it then aborts.
-/

/-- One node of the intrusive reference chain: the node's address and the
creation-time stacktrace snapshot it carries. -/
structure tracked_ref_node where
  id : Nat
  stacktrace_ : Nat
deriving DecidableEq, Repr

/-- State of one `tracked_borrow_manager`: the chain, newest first
(`ref_chain_` is the head). -/
structure tracked_borrow_manager where
  ref_chain_ : List tracked_ref_node
deriving DecidableEq, Repr

/-- `tracked_borrow_manager::unregister_ref` via `get_previous_ptr_in_chain`:
splice out the first chain node with the given address.  The source asserts
the node is found; on the empty chain this model returns the chain unchanged
(the assertion case). -/
def tracked_erase (i : Nat) : List tracked_ref_node → List tracked_ref_node
  | [] => []
  | n :: rest => if n.id = i then rest else n :: tracked_erase i rest

/-- The arguments one invocation of the tracked `dangling_reference_panic`
hook receives. -/
structure tracked_panic_call where
  var_type : Nat
  var_instance : Nat
  var_destruction_stack : Nat
  dangling_ref_index : Nat
  dangling_ref_creation_stack : Nat
deriving DecidableEq, Repr

/-- The walk inside `verify_dangling_references`: one loop iteration per
chain node, invoking the hook (when installed) with the running index and
the node's creation stack, and incrementing the index every iteration. -/
def tracked_walk (hook : Bool) (ty inst dstack : Nat) :
    Nat → List tracked_ref_node → List tracked_panic_call
  | _, [] => []
  | i, n :: rest =>
      (if hook then [⟨ty, inst, dstack, i, n.stacktrace_⟩] else []) ++
        tracked_walk hook ty inst dstack (i + 1) rest

/-- Result of `tracked_borrow_manager::verify_dangling_references`: the hook
invocations made and whether `abort()` was reached. -/
structure tracked_verify_outcome where
  panic_calls : List tracked_panic_call
  aborted : Bool
deriving DecidableEq, Repr

/-- `tracked_borrow_manager::verify_dangling_references`: nothing happens on
an empty chain; otherwise walk the chain and abort. -/
def tracked_verify_dangling_references (hook : Bool) (ty inst dstack : Nat)
    (m : tracked_borrow_manager) : tracked_verify_outcome :=
  match m.ref_chain_ with
  | [] => ⟨[], false⟩
  | ch => ⟨tracked_walk hook ty inst dstack 0 ch, true⟩

theorem tracked_walk_true_length (ty inst dstack : Nat) (ch : List tracked_ref_node)
    (i : Nat) : (tracked_walk true ty inst dstack i ch).length = ch.length := by
  induction ch generalizing i with
  | nil => rfl
  | cons n rest ih => simp [tracked_walk, ih]

theorem tracked_walk_true_get? (ty inst dstack : Nat) (ch : List tracked_ref_node)
    (i j : Nat) :
    (tracked_walk true ty inst dstack i ch).get? j =
      (ch.get? j).map (fun n => ⟨ty, inst, dstack, i + j, n.stacktrace_⟩) := by
  induction ch generalizing i j with
  | nil => simp [tracked_walk]
  | cons n rest ih =>
    cases j with
    | zero => simp [tracked_walk]
    | succ k =>
      simp only [tracked_walk, if_pos, List.singleton_append, List.get?_cons_succ]
      rw [ih (i + 1) k]
      simp [show i + 1 + k = i + (k + 1) from by omega]

/-- Claim C3: a tracked-strategy owner destroyed while `n ≥ 1` views are
still registered invokes the installed panic hook exactly `n` times — once
per surviving chain node, with an ascending index starting at 0, the
destruction-time stack trace and that node's creation-time stack trace — and
then unconditionally aborts (even when no hook is installed). -/
theorem tracked_verify_panics_once_per_ref (ty inst dstack : Nat)
    (m : tracked_borrow_manager) (hne : m.ref_chain_ ≠ []) :
    (tracked_verify_dangling_references true ty inst dstack m).panic_calls.length =
        m.ref_chain_.length ∧
    (∀ (j : Nat) (n : tracked_ref_node), m.ref_chain_.get? j = some n →
        (tracked_verify_dangling_references true ty inst dstack m).panic_calls.get? j =
          some ⟨ty, inst, dstack, j, n.stacktrace_⟩) ∧
    ∀ hook : Bool,
      (tracked_verify_dangling_references hook ty inst dstack m).aborted = true := by
  obtain ⟨n, rest, hch⟩ : ∃ n rest, m.ref_chain_ = n :: rest := by
    cases hm : m.ref_chain_ with
    | nil => exact absurd hm hne
    | cons n rest => exact ⟨n, rest, rfl⟩
  have hver : ∀ hook, tracked_verify_dangling_references hook ty inst dstack m =
      ⟨tracked_walk hook ty inst dstack 0 (n :: rest), true⟩ := by
    intro hook
    simp [tracked_verify_dangling_references, hch]
  refine ⟨?_, ?_, ?_⟩
  · rw [hver true]
    simpa [hch] using tracked_walk_true_length ty inst dstack (n :: rest) 0
  · intro j node hnode
    rw [hch] at hnode
    rw [hver true]
    simp only [tracked_walk_true_get?, Nat.zero_add, hnode]
    rfl
  · intro hook
    rw [hver hook]

/-- Witness for claim C3 on a chain of two surviving views. -/
theorem tracked_verify_panics_once_per_ref_witness :
    (tracked_verify_dangling_references true 7 42 99
        ⟨[⟨1, 11⟩, ⟨2, 22⟩]⟩).panic_calls.length =
      (tracked_borrow_manager.mk [⟨1, 11⟩, ⟨2, 22⟩]).ref_chain_.length ∧
    (∀ (j : Nat) (n : tracked_ref_node),
        (tracked_borrow_manager.mk [⟨1, 11⟩, ⟨2, 22⟩]).ref_chain_.get? j = some n →
        (tracked_verify_dangling_references true 7 42 99
            ⟨[⟨1, 11⟩, ⟨2, 22⟩]⟩).panic_calls.get? j =
          some ⟨7, 42, 99, j, n.stacktrace_⟩) ∧
    ∀ hook : Bool,
      (tracked_verify_dangling_references hook 7 42 99 ⟨[⟨1, 11⟩, ⟨2, 22⟩]⟩).aborted = true :=
  tracked_verify_panics_once_per_ref 7 42 99 ⟨[⟨1, 11⟩, ⟨2, 22⟩]⟩ (by decide)

/-!
## Tracked `ref_base` and move semantics
Embedding of `saam::tracked_borrow_manager::ref_base` for a single owner.
`borrow_manager_` is modelled by the flag `managed` (pointing to the one
manager under consideration or null). -/

/-- State of a `tracked_borrow_manager::ref_base` relative to one manager:
the node's own address (`this`), the stacktrace snapshot it carries, and
whether `borrow_manager_` points to the manager (`false` = `nullptr`). -/
structure tracked_ref_base where
  id : Nat
  stacktrace_ : Nat
  managed : Bool
deriving DecidableEq, Repr

/-- `ref_base::register_self` (tracked): if managed, push this node at the
head of the chain and capture the current stacktrace. -/
def tracked_register_self (r : tracked_ref_base) (cur_stack : Nat)
    (m : tracked_borrow_manager) : tracked_ref_base × tracked_borrow_manager :=
  if r.managed then
    ({ r with stacktrace_ := cur_stack }, ⟨⟨r.id, cur_stack⟩ :: m.ref_chain_⟩)
  else
    (r, m)

/-- `ref_base::unregister_self` (tracked): if managed, splice this node out
of the chain, null the manager pointer and clear the stacktrace. -/
def tracked_unregister_self (r : tracked_ref_base) (m : tracked_borrow_manager) :
    tracked_ref_base × tracked_borrow_manager :=
  if r.managed then
    ({ r with managed := false, stacktrace_ := 0 }, ⟨tracked_erase r.id m.ref_chain_⟩)
  else
    (r, m)

/-- `ref_base::ref_base(ref_base &&)` (tracked): the destination copies the
source's manager pointer and registers itself (as a new node at its own
address `dst_id`), then the source unregisters itself.  Returns
(destination, source afterwards, manager afterwards). -/
def tracked_ref_base_move_ctor (other : tracked_ref_base) (dst_id cur_stack : Nat)
    (m : tracked_borrow_manager) :
    tracked_ref_base × tracked_ref_base × tracked_borrow_manager :=
  let dst0 : tracked_ref_base := ⟨dst_id, 0, other.managed⟩
  let (dst, m1) := tracked_register_self dst0 cur_stack m
  let (src, m2) := tracked_unregister_self other m1
  (dst, src, m2)

/-- `ref_base::~ref_base()` (tracked): `unregister_self()`. -/
def tracked_ref_base_dtor (r : tracked_ref_base) (m : tracked_borrow_manager) :
    tracked_borrow_manager :=
  (tracked_unregister_self r m).2

/-- `counted_ref` destructor: the inherited `ref_base` destructor. -/
def counted_ref_dtor (r : counted_ref) : List mgr_op :=
  counted_ref_base_dtor r.base

theorem tracked_erase_length (i : Nat) (ch : List tracked_ref_node)
    (h : ∃ n ∈ ch, n.id = i) : (tracked_erase i ch).length + 1 = ch.length := by
  induction ch with
  | nil => simp at h
  | cons n rest ih =>
    by_cases hn : n.id = i
    · simp [tracked_erase, hn]
    · have h' : ∃ x ∈ rest, x.id = i := by
        obtain ⟨x, hx, hxi⟩ := h
        rcases List.mem_cons.mp hx with rfl | hx'
        · exact absurd hxi hn
        · exact ⟨x, hx', hxi⟩
      simp only [tracked_erase, if_neg hn, List.length_cons]
      rw [← ih h']

/-- `ref_base::operator=(ref_base &&)` (counted): early-return on
self-assignment; when the borrow manager changes, unregister from the old
one, adopt the source's manager and register there; in every case the
source then unregisters itself.  Returns (destination, source afterwards,
manager operations in order). -/
def counted_ref_base_move_assign (self other : counted_ref_base) (same_object : Bool) :
    counted_ref_base × counted_ref_base × List mgr_op :=
  if same_object then (self, other, [])
  else
    let step1 : counted_ref_base × List mgr_op :=
      if self.borrow_manager_ ≠ other.borrow_manager_ then
        let (_r1, ops1) := counted_unregister_self self
        let r2 : counted_ref_base := ⟨other.borrow_manager_⟩
        (r2, ops1 ++ counted_register_self r2)
      else (self, [])
    let (other', ops2) := counted_unregister_self other
    (step1.1, other', step1.2 ++ ops2)

/-- `basic_ref::operator=(basic_ref &&)` (counted): early-return on
self-assignment, otherwise take the instance pointer (nulling the source's)
and delegate to the `ref_base` move assignment. -/
def counted_ref_move_assign (self other : counted_ref) (same_object : Bool) :
    counted_ref × counted_ref × List mgr_op :=
  if same_object then (self, other, [])
  else
    let (b, ob, ops) := counted_ref_base_move_assign self.base other.base false
    (⟨other.instance_, b⟩, ⟨none, ob⟩, ops)

/-- `ref_base::operator=(ref_base &&)` (tracked), in the single-owner model:
the same structure — skip the re-registration branch when the manager
pointer does not change, then the source unregisters itself. -/
def tracked_ref_base_move_assign (self other : tracked_ref_base) (same_object : Bool)
    (cur_stack : Nat) (m : tracked_borrow_manager) :
    tracked_ref_base × tracked_ref_base × tracked_borrow_manager :=
  if same_object then (self, other, m)
  else
    let step1 : tracked_ref_base × tracked_borrow_manager :=
      if self.managed ≠ other.managed then
        let (s1, m1) := tracked_unregister_self self m
        tracked_register_self ⟨s1.id, s1.stacktrace_, other.managed⟩ cur_stack m1
      else (self, m)
    let (other', m2) := tracked_unregister_self other step1.2
    (step1.1, other', m2)

theorem apply_reg_unreg (w : mgr_world) (M : Nat) :
    apply_mgr_ops w [mgr_op.reg M, mgr_op.unreg M] = w := by
  funext i
  by_cases h : i = M <;> simp [apply_mgr_ops, apply_mgr_op, h]

theorem apply_unreg_reg_unreg (w : mgr_world) (M1 M2 : Nat) (hM : M1 ≠ M2) :
    apply_mgr_ops w [mgr_op.unreg M1, mgr_op.reg M2, mgr_op.unreg M2] =
      apply_mgr_op w (mgr_op.unreg M1) := by
  funext i
  by_cases h1 : i = M2
  · subst h1
    have h2 : ¬ i = M1 := fun h => hM h.symm
    simp [apply_mgr_ops, apply_mgr_op, h2]
  · by_cases h2 : i = M1
    · subst h2
      simp [apply_mgr_ops, apply_mgr_op, h1]
    · simp [apply_mgr_ops, apply_mgr_op, h1, h2]

theorem counted_ref_base_move_assign_spec (self other : counted_ref_base) :
    ((counted_ref_base_move_assign self other false).1 = ⟨other.borrow_manager_⟩ ∧
     (counted_ref_base_move_assign self other false).2.1 = ⟨none⟩) ∧
    (self.borrow_manager_ = none →
      ∀ w : mgr_world,
        apply_mgr_ops w (counted_ref_base_move_assign self other false).2.2 = w) ∧
    (∀ M1 : Nat, self.borrow_manager_ = some M1 →
      ∀ w : mgr_world,
        apply_mgr_ops w (counted_ref_base_move_assign self other false).2.2 =
          apply_mgr_op w (mgr_op.unreg M1)) := by
  obtain ⟨sbm⟩ := self
  obtain ⟨obm⟩ := other
  cases sbm with
  | none =>
    cases obm with
    | none =>
      refine ⟨⟨rfl, rfl⟩, fun _ w => rfl, fun M1 hM1 w => ?_⟩
      exact absurd hM1 (by simp)
    | some M2 =>
      refine ⟨⟨rfl, rfl⟩, fun _ w => ?_, fun M1 hM1 w => ?_⟩
      · have hops : (counted_ref_base_move_assign ⟨none⟩ ⟨some M2⟩ false).2.2 =
            [mgr_op.reg M2, mgr_op.unreg M2] := by
          simp [counted_ref_base_move_assign, counted_unregister_self,
            counted_register_self]
        rw [hops, apply_reg_unreg]
      · exact absurd hM1 (by simp)
  | some M1 =>
    cases obm with
    | none =>
      refine ⟨⟨?_, rfl⟩, fun h _ => ?_, fun M1x hM1 w => ?_⟩
      · simp [counted_ref_base_move_assign, counted_unregister_self,
          counted_register_self]
      · exact absurd h (by simp)
      · have hM : M1x = M1 := by
          have := hM1
          simp at this
          omega
        subst hM
        rfl
    | some M2 =>
      by_cases hM : M1 = M2
      · refine ⟨⟨?_, ?_⟩, fun h _ => ?_, fun M1x hM1 w => ?_⟩
        · simp [counted_ref_base_move_assign, counted_unregister_self,
            counted_register_self, hM]
        · simp [counted_ref_base_move_assign, counted_unregister_self,
            counted_register_self, hM]
        · exact absurd h (by simp)
        · have hMx : M1x = M1 := by
            have := hM1
            simp at this
            omega
          rw [hMx]
          have hops : (counted_ref_base_move_assign ⟨some M1⟩ ⟨some M2⟩ false).2.2 =
              [mgr_op.unreg M2] := by
            simp [counted_ref_base_move_assign, counted_unregister_self,
              counted_register_self, hM]
          rw [hops, hM]
          rfl
      · refine ⟨⟨?_, ?_⟩, fun h _ => ?_, fun M1x hM1 w => ?_⟩
        · simp [counted_ref_base_move_assign, counted_unregister_self,
            counted_register_self, hM]
        · simp [counted_ref_base_move_assign, counted_unregister_self,
            counted_register_self, hM]
        · exact absurd h (by simp)
        · have hMx : M1x = M1 := by
            have := hM1
            simp at this
            omega
          rw [hMx]
          have hops : (counted_ref_base_move_assign ⟨some M1⟩ ⟨some M2⟩ false).2.2 =
              [mgr_op.unreg M1, mgr_op.reg M2, mgr_op.unreg M2] := by
            simp [counted_ref_base_move_assign, counted_unregister_self,
              counted_register_self, hM]
          rw [hops, apply_unreg_reg_unreg w M1 M2 hM]

/-- Claim C6 counterexample: move-assigning between two views registered to
the same owner (manager at address 3, outstanding count 2) runs
`other.unregister_self()` with the re-registration branch skipped, so the
owner's outstanding count drops from 2 to 1 — it is not "the same
immediately after the move as immediately before it". -/
theorem move_assign_same_owner_drops_count :
    (counted_ref_move_assign ⟨some 10, ⟨some 3⟩⟩ ⟨some 11, ⟨some 3⟩⟩ false).2.2 =
      [mgr_op.unreg 3] ∧
    apply_mgr_ops (fun _ => 2)
        (counted_ref_move_assign ⟨some 10, ⟨some 3⟩⟩ ⟨some 11, ⟨some 3⟩⟩ false).2.2 3 = 1 ∧
    (1 : Nat) ≠ 2 := by
  refine ⟨rfl, rfl, by decide⟩

/-- Claim C6 (amended): move-constructing a view transfers its registration
to the destination with every owner's outstanding-view count unchanged
(counted: no counter operation at all; tracked: the chain keeps its
length).  Move-assigning transfers the source's registration and in
addition releases the destination's previous registration when it had one:
the net counter effect is the identity when the destination was unmanaged,
and exactly one decrement of the destination's previous owner otherwise —
in particular same-owner move-assignment decrements that owner once.  In
every case the moved-from source is left unregistered ('unmanaged') but
valid and destructible, and subsequently destroying it performs no manager
operation. -/
theorem move_transfers_registration
    (other asg_self asg_other : counted_ref) (t_other t_self t_src : tracked_ref_base)
    (dst_id cur_stack cur_stack2 : Nat) (m m2 : tracked_borrow_manager)
    (hman : t_other.managed = true)
    (hmem : ∃ n ∈ m.ref_chain_, n.id = t_other.id)
    (hid : dst_id ≠ t_other.id)
    (h2self : t_self.managed = true)
    (h2src : t_src.managed = true)
    (h2mem : ∃ n ∈ m2.ref_chain_, n.id = t_src.id) :
    ((counted_ref_move_ctor other).2.2 = [] ∧
     (∀ w : mgr_world, apply_mgr_ops w (counted_ref_move_ctor other).2.2 = w) ∧
     (counted_ref_move_ctor other).1.instance_ = other.instance_ ∧
     (counted_ref_move_ctor other).1.base.borrow_manager_ = other.base.borrow_manager_ ∧
     counted_is_managed (counted_ref_move_ctor other).2.1.base = false ∧
     counted_ref_dtor (counted_ref_move_ctor other).2.1 = []) ∧
    ((tracked_ref_base_move_ctor t_other dst_id cur_stack m).2.2.ref_chain_.length =
       m.ref_chain_.length ∧
     (tracked_ref_base_move_ctor t_other dst_id cur_stack m).2.1.managed = false ∧
     (tracked_ref_base_dtor (tracked_ref_base_move_ctor t_other dst_id cur_stack m).2.1
        (tracked_ref_base_move_ctor t_other dst_id cur_stack m).2.2) =
       (tracked_ref_base_move_ctor t_other dst_id cur_stack m).2.2) ∧
    (counted_ref_move_assign asg_self asg_other true = (asg_self, asg_other, []) ∧
     (counted_ref_move_assign asg_self asg_other false).1 =
       ⟨asg_other.instance_, ⟨asg_other.base.borrow_manager_⟩⟩ ∧
     (counted_ref_move_assign asg_self asg_other false).2.1 = ⟨none, ⟨none⟩⟩ ∧
     counted_ref_dtor (counted_ref_move_assign asg_self asg_other false).2.1 = [] ∧
     (asg_self.base.borrow_manager_ = none →
       ∀ w : mgr_world,
         apply_mgr_ops w (counted_ref_move_assign asg_self asg_other false).2.2 = w) ∧
     (∀ M1 : Nat, asg_self.base.borrow_manager_ = some M1 →
       ∀ w : mgr_world,
         apply_mgr_ops w (counted_ref_move_assign asg_self asg_other false).2.2 =
           apply_mgr_op w (mgr_op.unreg M1))) ∧
    ((tracked_ref_base_move_assign t_self t_src false cur_stack2 m2).2.2.ref_chain_.length
        + 1 = m2.ref_chain_.length ∧
     (tracked_ref_base_move_assign t_self t_src false cur_stack2 m2).2.1.managed = false ∧
     tracked_ref_base_dtor
        (tracked_ref_base_move_assign t_self t_src false cur_stack2 m2).2.1
        (tracked_ref_base_move_assign t_self t_src false cur_stack2 m2).2.2 =
       (tracked_ref_base_move_assign t_self t_src false cur_stack2 m2).2.2) := by
  refine ⟨⟨rfl, fun w => rfl, rfl, rfl, rfl, rfl⟩, ?_, ?_, ?_⟩
  · have hmv : tracked_ref_base_move_ctor t_other dst_id cur_stack m =
        (⟨dst_id, cur_stack, true⟩,
         { t_other with managed := false, stacktrace_ := 0 },
         ⟨tracked_erase t_other.id (⟨dst_id, cur_stack⟩ :: m.ref_chain_)⟩) := by
      simp [tracked_ref_base_move_ctor, tracked_register_self, tracked_unregister_self, hman]
    rw [hmv]
    refine ⟨?_, rfl, rfl⟩
    have herase : tracked_erase t_other.id (⟨dst_id, cur_stack⟩ :: m.ref_chain_) =
        ⟨dst_id, cur_stack⟩ :: tracked_erase t_other.id m.ref_chain_ := by
      simp [tracked_erase, hid]
    rw [herase]
    have := tracked_erase_length t_other.id m.ref_chain_ hmem
    simp only [List.length_cons]
    omega
  · have hspec := counted_ref_base_move_assign_spec asg_self.base asg_other.base
    have h1 : (counted_ref_move_assign asg_self asg_other false).1 =
        ⟨asg_other.instance_,
         (counted_ref_base_move_assign asg_self.base asg_other.base false).1⟩ := rfl
    have h2 : (counted_ref_move_assign asg_self asg_other false).2.1 =
        ⟨none, (counted_ref_base_move_assign asg_self.base asg_other.base false).2.1⟩ := rfl
    have h3 : (counted_ref_move_assign asg_self asg_other false).2.2 =
        (counted_ref_base_move_assign asg_self.base asg_other.base false).2.2 := rfl
    refine ⟨rfl, ?_, ?_, ?_, ?_, ?_⟩
    · rw [h1, hspec.1.1]
    · rw [h2, hspec.1.2]
    · rw [counted_ref_dtor, h2, hspec.1.2]
      rfl
    · intro hnone w
      rw [h3]
      exact hspec.2.1 hnone w
    · intro M1 hM1 w
      rw [h3]
      exact hspec.2.2 M1 hM1 w
  · have hD : tracked_ref_base_move_assign t_self t_src false cur_stack2 m2 =
        (t_self, { t_src with managed := false, stacktrace_ := 0 },
         ⟨tracked_erase t_src.id m2.ref_chain_⟩) := by
      simp [tracked_ref_base_move_assign, tracked_unregister_self, tracked_register_self,
        h2self, h2src]
    rw [hD]
    exact ⟨tracked_erase_length t_src.id m2.ref_chain_ h2mem, rfl, rfl⟩

/-- Witness for claim C6: a managed view of a chain of two moved to a fresh
address, a move assignment between views of distinct owners, and a
same-owner tracked move assignment. -/
theorem move_transfers_registration_witness :
    (((counted_ref_move_ctor ⟨some 10, ⟨some 3⟩⟩).2.2 = [] ∧
     (∀ w : mgr_world, apply_mgr_ops w (counted_ref_move_ctor ⟨some 10, ⟨some 3⟩⟩).2.2 = w) ∧
     (counted_ref_move_ctor ⟨some 10, ⟨some 3⟩⟩).1.instance_ =
       (counted_ref.mk (some 10) ⟨some 3⟩).instance_ ∧
     (counted_ref_move_ctor ⟨some 10, ⟨some 3⟩⟩).1.base.borrow_manager_ =
       (counted_ref.mk (some 10) ⟨some 3⟩).base.borrow_manager_ ∧
     counted_is_managed (counted_ref_move_ctor ⟨some 10, ⟨some 3⟩⟩).2.1.base = false ∧
     counted_ref_dtor (counted_ref_move_ctor ⟨some 10, ⟨some 3⟩⟩).2.1 = []) ∧
    ((tracked_ref_base_move_ctor ⟨1, 11, true⟩ 5 77
        ⟨[⟨1, 11⟩, ⟨2, 22⟩]⟩).2.2.ref_chain_.length =
       (tracked_borrow_manager.mk [⟨1, 11⟩, ⟨2, 22⟩]).ref_chain_.length ∧
     (tracked_ref_base_move_ctor ⟨1, 11, true⟩ 5 77 ⟨[⟨1, 11⟩, ⟨2, 22⟩]⟩).2.1.managed = false ∧
     (tracked_ref_base_dtor
        (tracked_ref_base_move_ctor ⟨1, 11, true⟩ 5 77 ⟨[⟨1, 11⟩, ⟨2, 22⟩]⟩).2.1
        (tracked_ref_base_move_ctor ⟨1, 11, true⟩ 5 77 ⟨[⟨1, 11⟩, ⟨2, 22⟩]⟩).2.2) =
       (tracked_ref_base_move_ctor ⟨1, 11, true⟩ 5 77 ⟨[⟨1, 11⟩, ⟨2, 22⟩]⟩).2.2) ∧
    (counted_ref_move_assign ⟨some 12, ⟨some 4⟩⟩ ⟨some 13, ⟨some 5⟩⟩ true =
       (⟨some 12, ⟨some 4⟩⟩, ⟨some 13, ⟨some 5⟩⟩, []) ∧
     (counted_ref_move_assign ⟨some 12, ⟨some 4⟩⟩ ⟨some 13, ⟨some 5⟩⟩ false).1 =
       ⟨(counted_ref.mk (some 13) ⟨some 5⟩).instance_,
        ⟨(counted_ref.mk (some 13) ⟨some 5⟩).base.borrow_manager_⟩⟩ ∧
     (counted_ref_move_assign ⟨some 12, ⟨some 4⟩⟩ ⟨some 13, ⟨some 5⟩⟩ false).2.1 =
       ⟨none, ⟨none⟩⟩ ∧
     counted_ref_dtor
       (counted_ref_move_assign ⟨some 12, ⟨some 4⟩⟩ ⟨some 13, ⟨some 5⟩⟩ false).2.1 = [] ∧
     ((counted_ref.mk (some 12) ⟨some 4⟩).base.borrow_manager_ = none →
       ∀ w : mgr_world,
         apply_mgr_ops w
           (counted_ref_move_assign ⟨some 12, ⟨some 4⟩⟩ ⟨some 13, ⟨some 5⟩⟩ false).2.2 = w) ∧
     (∀ M1 : Nat, (counted_ref.mk (some 12) ⟨some 4⟩).base.borrow_manager_ = some M1 →
       ∀ w : mgr_world,
         apply_mgr_ops w
           (counted_ref_move_assign ⟨some 12, ⟨some 4⟩⟩ ⟨some 13, ⟨some 5⟩⟩ false).2.2 =
           apply_mgr_op w (mgr_op.unreg M1))) ∧
    ((tracked_ref_base_move_assign ⟨3, 33, true⟩ ⟨2, 22, true⟩ false 88
        ⟨[⟨3, 33⟩, ⟨2, 22⟩]⟩).2.2.ref_chain_.length + 1 =
       (tracked_borrow_manager.mk [⟨3, 33⟩, ⟨2, 22⟩]).ref_chain_.length ∧
     (tracked_ref_base_move_assign ⟨3, 33, true⟩ ⟨2, 22, true⟩ false 88
        ⟨[⟨3, 33⟩, ⟨2, 22⟩]⟩).2.1.managed = false ∧
     tracked_ref_base_dtor
        (tracked_ref_base_move_assign ⟨3, 33, true⟩ ⟨2, 22, true⟩ false 88
          ⟨[⟨3, 33⟩, ⟨2, 22⟩]⟩).2.1
        (tracked_ref_base_move_assign ⟨3, 33, true⟩ ⟨2, 22, true⟩ false 88
          ⟨[⟨3, 33⟩, ⟨2, 22⟩]⟩).2.2 =
       (tracked_ref_base_move_assign ⟨3, 33, true⟩ ⟨2, 22, true⟩ false 88
          ⟨[⟨3, 33⟩, ⟨2, 22⟩]⟩).2.2)) :=
  move_transfers_registration ⟨some 10, ⟨some 3⟩⟩ ⟨some 12, ⟨some 4⟩⟩ ⟨some 13, ⟨some 5⟩⟩
    ⟨1, 11, true⟩ ⟨3, 33, true⟩ ⟨2, 22, true⟩ 5 77 88
    ⟨[⟨1, 11⟩, ⟨2, 22⟩]⟩ ⟨[⟨3, 33⟩, ⟨2, 22⟩]⟩
    (by decide) (by decide) (by decide) (by decide) (by decide) (by decide)

/-!
## Reentrant shared/exclusive lock
Embedding of `saam::shared_recursive_mutex`
(`src/include/saam/shared_recursive_mutex.hpp`).

All public operations run under the internal bookkeeping mutex, so each is
one atomic step on the state `(unique_owner_thread_, lock_count_)`.
`lock_count_` is an `std::int64_t`: `0` = unlocked, positive = number of
shared locks, negative = recursive exclusive depth of the owner thread.
Blocking waits become enabling guards of a step relation.
-/

/-- State of a `shared_recursive_mutex`: the owning thread id of the last
exclusive acquisition and the signed lock counter. -/
structure shared_recursive_mutex where
  unique_owner_thread_ : Nat
  lock_count_ : Int
deriving DecidableEq, Repr

/-- `shared_recursive_mutex::lock_is_free`. -/
def lock_is_free (m : shared_recursive_mutex) : Bool :=
  decide (m.lock_count_ = 0)

/-- `shared_recursive_mutex::mutex_is_locked_unique`. -/
def mutex_is_locked_unique (m : shared_recursive_mutex) : Bool :=
  decide (m.lock_count_ < 0)

/-- `shared_recursive_mutex::mutex_is_locked_unique_by_thread`. -/
def mutex_is_locked_unique_by_thread (m : shared_recursive_mutex) (t : Nat) : Bool :=
  mutex_is_locked_unique m && decide (m.unique_owner_thread_ = t)

/-- `shared_recursive_mutex::mutex_is_locked_shared`. -/
def mutex_is_locked_shared (m : shared_recursive_mutex) : Bool :=
  decide (0 < m.lock_count_)

/-- The waiting condition of `register_unique_count`: the lock is free or
already exclusively held by the calling thread. -/
def unique_acquirable (t : Nat) (m : shared_recursive_mutex) : Bool :=
  lock_is_free m || mutex_is_locked_unique_by_thread m t

/-- The waiting condition of `register_shared_count`: the lock is free or
already shared. -/
def shared_acquirable (m : shared_recursive_mutex) : Bool :=
  lock_is_free m || mutex_is_locked_shared m

/-- Body of `register_unique_count` once its wait is granted: take ownership
and decrement the counter. -/
def register_unique_count (t : Nat) (m : shared_recursive_mutex) :
    shared_recursive_mutex :=
  ⟨t, m.lock_count_ - 1⟩

/-- `try_register_unique_count` (the body of `try_lock`). -/
def try_lock (t : Nat) (m : shared_recursive_mutex) : Bool × shared_recursive_mutex :=
  if unique_acquirable t m then (true, register_unique_count t m) else (false, m)

/-- `unregister_unique_count`: increment the counter; the returned flag tells
whether that release made the lock free.  The source asserts
`mutex_is_locked_unique_by_thread(this_thread)` on entry. -/
def unregister_unique_count (m : shared_recursive_mutex) :
    Bool × shared_recursive_mutex :=
  let m' : shared_recursive_mutex := ⟨m.unique_owner_thread_, m.lock_count_ + 1⟩
  (lock_is_free m', m')

/-- Body of `register_shared_count` once its wait is granted. -/
def register_shared_count (m : shared_recursive_mutex) : shared_recursive_mutex :=
  ⟨m.unique_owner_thread_, m.lock_count_ + 1⟩

/-- `try_register_shared_count` (the body of `try_lock_shared`). -/
def try_lock_shared (m : shared_recursive_mutex) : Bool × shared_recursive_mutex :=
  if shared_acquirable m then (true, register_shared_count m) else (false, m)

/-- `unregister_shared_count`: decrement the counter; the returned flag tells
whether the lock became free.  The source asserts `mutex_is_locked_shared`. -/
def unregister_shared_count (m : shared_recursive_mutex) :
    Bool × shared_recursive_mutex :=
  let m' : shared_recursive_mutex := ⟨m.unique_owner_thread_, m.lock_count_ - 1⟩
  (lock_is_free m', m')

/-- One completed public operation of `shared_recursive_mutex`.  Blocking
operations (`lock`, `lock_shared`) appear with their waiting condition as an
enabling guard; successful `try_lock` / `try_lock_shared` take the same
steps, and failed tries do not change the state. -/
inductive mutex_step : shared_recursive_mutex → shared_recursive_mutex → Prop
  | lock (t : Nat) (m : shared_recursive_mutex) (h : unique_acquirable t m = true) :
      mutex_step m (register_unique_count t m)
  | unlock (t : Nat) (m : shared_recursive_mutex)
      (h : mutex_is_locked_unique_by_thread m t = true) :
      mutex_step m (unregister_unique_count m).2
  | lock_shared (m : shared_recursive_mutex) (h : shared_acquirable m = true) :
      mutex_step m (register_shared_count m)
  | unlock_shared (m : shared_recursive_mutex) (h : mutex_is_locked_shared m = true) :
      mutex_step m (unregister_shared_count m).2

/-- A freshly constructed mutex: counter `0`; the owner field starts as the
default-constructed thread id `t0`. -/
def mutex_init (t0 : Nat) : shared_recursive_mutex := ⟨t0, 0⟩

/-- States reachable from the unlocked state by any interleaving of
completed lock operations. -/
def mutex_reachable (t0 : Nat) (m : shared_recursive_mutex) : Prop :=
  Relation.ReflTransGen mutex_step (mutex_init t0) m

/-- `n` recursive exclusive acquisitions by thread `t`. -/
def lock_n (t : Nat) : Nat → shared_recursive_mutex → shared_recursive_mutex
  | 0, m => m
  | k + 1, m => register_unique_count t (lock_n t k m)

/-- `n` exclusive releases. -/
def unlock_n : Nat → shared_recursive_mutex → shared_recursive_mutex
  | 0, m => m
  | k + 1, m => (unregister_unique_count (unlock_n k m)).2

theorem lock_n_count (t k : Nat) (m : shared_recursive_mutex) :
    (lock_n t k m).lock_count_ = m.lock_count_ - k := by
  induction k with
  | zero => simp [lock_n]
  | succ k ih => simp [lock_n, register_unique_count, ih]; omega

theorem lock_n_owner (t k : Nat) (m : shared_recursive_mutex) (hk : 1 ≤ k) :
    (lock_n t k m).unique_owner_thread_ = t := by
  cases k with
  | zero => omega
  | succ k => rfl

theorem unlock_n_count (k : Nat) (m : shared_recursive_mutex) :
    (unlock_n k m).lock_count_ = m.lock_count_ + k := by
  induction k with
  | zero => simp [unlock_n]
  | succ k ih => simp [unlock_n, unregister_unique_count, ih]; omega

theorem unlock_n_owner (k : Nat) (m : shared_recursive_mutex) :
    (unlock_n k m).unique_owner_thread_ = m.unique_owner_thread_ := by
  induction k with
  | zero => rfl
  | succ k ih => simp [unlock_n, unregister_unique_count, ih]

theorem reach_lock_n (t0 t k : Nat) :
    mutex_reachable t0 (lock_n t k (mutex_init t0)) := by
  induction k with
  | zero => exact Relation.ReflTransGen.refl
  | succ k ih =>
    refine Relation.ReflTransGen.tail ih (mutex_step.lock t _ ?_)
    cases k with
    | zero =>
      simp [lock_n, mutex_init, unique_acquirable, lock_is_free]
    | succ j =>
      have hc := lock_n_count t (j + 1) (mutex_init t0)
      have ho := lock_n_owner t (j + 1) (mutex_init t0) (by omega)
      have h0 : (mutex_init t0).lock_count_ = 0 := rfl
      simp [unique_acquirable, lock_is_free, mutex_is_locked_unique_by_thread,
        mutex_is_locked_unique, ho]
      omega

theorem reach_unlock_n (t0 t n k : Nat) (hn : 1 ≤ n) (hk : k ≤ n) :
    mutex_reachable t0 (unlock_n k (lock_n t n (mutex_init t0))) := by
  induction k with
  | zero => exact reach_lock_n t0 t n
  | succ k ih =>
    refine Relation.ReflTransGen.tail (ih (by omega)) (mutex_step.unlock t _ ?_)
    have hc := unlock_n_count k (lock_n t n (mutex_init t0))
    have hc2 := lock_n_count t n (mutex_init t0)
    have ho := unlock_n_owner k (lock_n t n (mutex_init t0))
    have ho2 := lock_n_owner t n (mutex_init t0) hn
    have h0 : (mutex_init t0).lock_count_ = 0 := rfl
    rw [ho2] at ho
    simp [mutex_is_locked_unique_by_thread, mutex_is_locked_unique, ho]
    omega

/-- Claim C4: the reentrant shared/exclusive lock is never simultaneously
exclusively held and shared-held in any state reachable from the unlocked
state; its single counter encodes zero = free, positive = shared holds,
negative = exclusive recursion depth of the owner thread; the owner thread
re-acquires exclusively without blocking (`try_lock` succeeds immediately,
incrementing the depth), and after `n` recursive acquisitions exactly `n`
releases are needed before the lock becomes free — each intermediate state
being reachable and still exclusively owned by that thread. -/
theorem shared_recursive_mutex_exclusion (t0 t n : Nat) (hn : 1 ≤ n) :
    (∀ m : shared_recursive_mutex, mutex_reachable t0 m →
        ¬(mutex_is_locked_unique m = true ∧ mutex_is_locked_shared m = true)) ∧
    (∀ m : shared_recursive_mutex,
        (lock_is_free m = true ↔ m.lock_count_ = 0) ∧
        (mutex_is_locked_shared m = true ↔ 0 < m.lock_count_) ∧
        (mutex_is_locked_unique m = true ↔ m.lock_count_ < 0)) ∧
    (∀ m : shared_recursive_mutex, mutex_is_locked_unique_by_thread m t = true →
        try_lock t m = (true, register_unique_count t m) ∧
        (register_unique_count t m).lock_count_ = m.lock_count_ - 1) ∧
    (∀ k : Nat, unique_acquirable t (lock_n t k (mutex_init t0)) = true) ∧
    (∀ k : Nat, k ≤ n →
        (unlock_n k (lock_n t n (mutex_init t0))).lock_count_ = -(n : Int) + k) ∧
    (∀ k : Nat, k < n →
        lock_is_free (unlock_n k (lock_n t n (mutex_init t0))) = false ∧
        mutex_is_locked_unique_by_thread (unlock_n k (lock_n t n (mutex_init t0))) t =
          true) ∧
    lock_is_free (unlock_n n (lock_n t n (mutex_init t0))) = true ∧
    (∀ k : Nat, k ≤ n →
        mutex_reachable t0 (unlock_n k (lock_n t n (mutex_init t0)))) := by
  refine ⟨?_, ?_, ?_, ?_, ?_, ?_, ?_, ?_⟩
  · intro m _ ⟨h1, h2⟩
    simp [mutex_is_locked_unique, mutex_is_locked_shared] at h1 h2
    omega
  · intro m
    refine ⟨?_, ?_, ?_⟩ <;> simp [lock_is_free, mutex_is_locked_shared, mutex_is_locked_unique]
  · intro m h
    constructor
    · simp [try_lock, unique_acquirable, h]
    · simp [register_unique_count]
  · intro k
    cases k with
    | zero => simp [lock_n, mutex_init, unique_acquirable, lock_is_free]
    | succ j =>
      have hc := lock_n_count t (j + 1) (mutex_init t0)
      have ho := lock_n_owner t (j + 1) (mutex_init t0) (by omega)
      have h0 : (mutex_init t0).lock_count_ = 0 := rfl
      simp [unique_acquirable, lock_is_free, mutex_is_locked_unique_by_thread,
        mutex_is_locked_unique, ho]
      omega
  · intro k _
    have hc := unlock_n_count k (lock_n t n (mutex_init t0))
    have hc2 := lock_n_count t n (mutex_init t0)
    have h0 : (mutex_init t0).lock_count_ = 0 := rfl
    omega
  · intro k hk
    have hc := unlock_n_count k (lock_n t n (mutex_init t0))
    have hc2 := lock_n_count t n (mutex_init t0)
    have ho := unlock_n_owner k (lock_n t n (mutex_init t0))
    have ho2 := lock_n_owner t n (mutex_init t0) hn
    have h0 : (mutex_init t0).lock_count_ = 0 := rfl
    rw [ho2] at ho
    constructor
    · simp [lock_is_free]
      omega
    · simp [mutex_is_locked_unique_by_thread, mutex_is_locked_unique, ho]
      omega
  · have hc := unlock_n_count n (lock_n t n (mutex_init t0))
    have hc2 := lock_n_count t n (mutex_init t0)
    have h0 : (mutex_init t0).lock_count_ = 0 := rfl
    simp [lock_is_free]
    omega
  · intro k hk
    exact reach_unlock_n t0 t n k hn hk

/-- Witness for claim C4 with two threads and recursion depth two. -/
theorem shared_recursive_mutex_exclusion_witness :
    (∀ m : shared_recursive_mutex, mutex_reachable 0 m →
        ¬(mutex_is_locked_unique m = true ∧ mutex_is_locked_shared m = true)) ∧
    (∀ m : shared_recursive_mutex,
        (lock_is_free m = true ↔ m.lock_count_ = 0) ∧
        (mutex_is_locked_shared m = true ↔ 0 < m.lock_count_) ∧
        (mutex_is_locked_unique m = true ↔ m.lock_count_ < 0)) ∧
    (∀ m : shared_recursive_mutex, mutex_is_locked_unique_by_thread m 1 = true →
        try_lock 1 m = (true, register_unique_count 1 m) ∧
        (register_unique_count 1 m).lock_count_ = m.lock_count_ - 1) ∧
    (∀ k : Nat, unique_acquirable 1 (lock_n 1 k (mutex_init 0)) = true) ∧
    (∀ k : Nat, k ≤ 2 →
        (unlock_n k (lock_n 1 2 (mutex_init 0))).lock_count_ = -(2 : Int) + k) ∧
    (∀ k : Nat, k < 2 →
        lock_is_free (unlock_n k (lock_n 1 2 (mutex_init 0))) = false ∧
        mutex_is_locked_unique_by_thread (unlock_n k (lock_n 1 2 (mutex_init 0))) 1 =
          true) ∧
    lock_is_free (unlock_n 2 (lock_n 1 2 (mutex_init 0))) = true ∧
    (∀ k : Nat, k ≤ 2 →
        mutex_reachable 0 (unlock_n k (lock_n 1 2 (mutex_init 0)))) :=
  shared_recursive_mutex_exclusion 0 1 2 (by decide)

/-!
## Condition wait
Embedding of `saam::synchronized<T>::condition::wait` for an exclusive guard
(`src/include/saam/detail/synchronized.ipp`, also `saam::condition::wait` in
`src/include/saam/condition.hpp`, which has the same structure).

The call runs under the lock's internal bookkeeping mutex, first releases
one level of the caller's logical hold (`unregister_unique_count`), then
enters `condition_variable::wait_for` with `waiting_predicate`.  The
standard predicate overload of `wait_for` evaluates the predicate
immediately, then once per wake, and — when the timeout expires — one final
time, returning that final evaluation.  A run of the wait is therefore
determined by the sequence of values the fulfillment criteria takes at the
successive evaluation points; the list `c :: rest` below holds those values,
its last element being the final (timeout-time) evaluation when no earlier
one was `true`.  Each step returns, besides the mutex state, whether
`notify_mutex_free_condition(true)` was called, and the list of mutex states
passed through (for reasoning about what other threads could observe).
-/

/-- `::wait_result` of the condition. -/
inductive wait_result
  | criteria_met
  | timeout
deriving DecidableEq, Repr

/-- The `waiting_predicate` lambda of `condition::wait` (exclusive guard):
re-register the unique count, evaluate the criteria; when unsatisfied,
unregister the count again and notify all waiters iff that release made the
lock free.  Returns (criteria result, mutex state, notified, states passed
through). -/
def waiting_predicate (t : Nat) (criteria : Bool) (m : shared_recursive_mutex) :
    Bool × shared_recursive_mutex × Bool × List shared_recursive_mutex :=
  let m1 := register_unique_count t m
  if criteria then
    (true, m1, false, [m1])
  else
    let (no_lock_counts, m2) := unregister_unique_count m1
    (false, m2, no_lock_counts, [m1, m2])

/-- `std::condition_variable::wait_for` with `waiting_predicate`: evaluate
the predicate at each point of the schedule; stop early when it holds; the
last schedule entry is the final evaluation at timeout expiry. -/
def cv_wait_for (t : Nat) : Bool → List Bool → shared_recursive_mutex →
    Bool × shared_recursive_mutex × List Bool × List shared_recursive_mutex
  | c, [], m =>
      let (met, m1, ntf, tr) := waiting_predicate t c m
      (met, m1, [ntf], tr)
  | c, c2 :: rs, m =>
      let (met, m1, ntf, tr) := waiting_predicate t c m
      if met then (true, m1, [ntf], tr)
      else
        let (b, m2, ntfs, tr2) := cv_wait_for t c2 rs m1
        (b, m2, ntf :: ntfs, tr ++ tr2)

/-- `synchronized<T>::condition::wait` with a timeout, for an exclusive
guard held by thread `t`: release one level of the logical hold, run the
predicate wait, and map the `wait_for` result to `criteria_met` /
`timeout`. -/
def condition_wait_for (t : Nat) (c : Bool) (rest : List Bool)
    (m : shared_recursive_mutex) :
    wait_result × shared_recursive_mutex × List Bool × List shared_recursive_mutex :=
  let m0 := (unregister_unique_count m).2
  let (met, m1, ntfs, tr) := cv_wait_for t c rest m0
  ((if met then wait_result.criteria_met else wait_result.timeout), m1, ntfs, m0 :: tr)

/-- Claim C2 counterevidence: a thread holding the exclusive lock at depth 1
(`lock_count_ = -1`) calls the timed wait and the predicate is unsatisfied
at every evaluation point, including the final one at timeout expiry.  The
call returns `timeout`, but the final `waiting_predicate` evaluation has
unregistered the caller's logical hold: the mutex ends free
(`lock_count_ = 0`), not re-registered as the specification requires.  The
guard passed to `wait` then releases "its" hold on destruction via
`unregister_unique_count`, whose own precondition
`assert(mutex_is_locked_unique_by_thread(...))` is violated, and whose
increment leaves the counter at `1` — an apparently shared-locked mutex. -/
theorem condition_wait_timeout_drops_hold :
    condition_wait_for 1 false [] ⟨1, -1⟩ =
      (wait_result.timeout, ⟨1, 0⟩, [true], [⟨1, 0⟩, ⟨1, -1⟩, ⟨1, 0⟩]) ∧
    mutex_is_locked_unique_by_thread ⟨1, 0⟩ 1 = false ∧
    (unregister_unique_count ⟨1, 0⟩).2.lock_count_ = 1 ∧
    mutex_is_locked_shared (unregister_unique_count ⟨1, 0⟩).2 = true := by
  constructor
  · rfl
  · constructor
    · rfl
    · constructor
      · rfl
      · rfl

theorem cv_wait_for_keeps_exclusive (t : Nat) (c : Bool) (rest : List Bool)
    (m : shared_recursive_mutex) (hown : m.unique_owner_thread_ = t)
    (hcnt : m.lock_count_ ≤ -1) :
    (∀ s ∈ (cv_wait_for t c rest m).2.2.2,
        mutex_is_locked_unique_by_thread s t = true) ∧
    (∀ b ∈ (cv_wait_for t c rest m).2.2.1, b = false) ∧
    (cv_wait_for t c rest m).2.1.lock_count_ ≤ -1 ∧
    (cv_wait_for t c rest m).2.1.unique_owner_thread_ = t := by
  induction rest generalizing c m with
  | nil =>
    cases c with
    | true =>
      refine ⟨?_, ?_, ?_, ?_⟩ <;>
        simp [cv_wait_for, waiting_predicate, register_unique_count,
          mutex_is_locked_unique_by_thread, mutex_is_locked_unique] <;>
        omega
    | false =>
      refine ⟨?_, ?_, ?_, ?_⟩ <;>
        simp [cv_wait_for, waiting_predicate, register_unique_count,
          unregister_unique_count, lock_is_free, hown,
          mutex_is_locked_unique_by_thread, mutex_is_locked_unique] <;>
        omega
  | cons c2 rs ih =>
    cases c with
    | true =>
      refine ⟨?_, ?_, ?_, ?_⟩ <;>
        simp [cv_wait_for, waiting_predicate, register_unique_count,
          mutex_is_locked_unique_by_thread, mutex_is_locked_unique] <;>
        omega
    | false =>
      have hm2own : (⟨t, m.lock_count_⟩ : shared_recursive_mutex).unique_owner_thread_ = t :=
        rfl
      have hm2cnt : (⟨t, m.lock_count_⟩ : shared_recursive_mutex).lock_count_ ≤ -1 := hcnt
      have ihh := ih c2 ⟨t, m.lock_count_⟩ hm2own hm2cnt
      have hunf : cv_wait_for t false (c2 :: rs) m =
          ((cv_wait_for t c2 rs ⟨t, m.lock_count_⟩).1,
           (cv_wait_for t c2 rs ⟨t, m.lock_count_⟩).2.1,
           decide (m.lock_count_ = 0) :: (cv_wait_for t c2 rs ⟨t, m.lock_count_⟩).2.2.1,
           [⟨t, m.lock_count_ - 1⟩, ⟨t, m.lock_count_⟩] ++
             (cv_wait_for t c2 rs ⟨t, m.lock_count_⟩).2.2.2) := by
        simp [cv_wait_for, waiting_predicate, register_unique_count,
          unregister_unique_count, lock_is_free]
      rw [hunf]
      obtain ⟨ih1, ih2, ih3, ih4⟩ := ihh
      refine ⟨?_, ?_, ih3, ih4⟩
      · intro s hs
        simp only [List.cons_append, List.nil_append, List.mem_cons] at hs
        rcases hs with rfl | hs
        · simp [mutex_is_locked_unique_by_thread, mutex_is_locked_unique]
          omega
        rcases hs with rfl | hs
        · simp [mutex_is_locked_unique_by_thread, mutex_is_locked_unique]
          omega
        · exact ih1 s hs
      · intro b hb
        rcases List.mem_cons.mp hb with rfl | hb
        · simp
          omega
        · exact ih2 b hb

/-- Claim C10: the condition's wait releases exactly one level of the
caller's logical hold before sleeping; each wake re-registers one level and,
on an unsatisfied predicate, unregisters exactly one level again, notifying
other waiters only when that release made the lock free.  Consequently a
thread that entered the wait holding the exclusive lock at recursion depth
`d ≥ 2` keeps the lock exclusively held through every state of the wait, and
no notification is ever issued during it. -/
theorem condition_wait_releases_one_level (t d : Nat) (hd : 2 ≤ d)
    (c : Bool) (rest : List Bool) :
    ((unregister_unique_count ⟨t, -(d : Int)⟩).2.lock_count_ = -(d : Int) + 1) ∧
    (∀ m' : shared_recursive_mutex,
        (waiting_predicate t true m').2.1.lock_count_ = m'.lock_count_ - 1 ∧
        (waiting_predicate t false m').2.1.lock_count_ = m'.lock_count_ ∧
        ((waiting_predicate t false m').2.2.1 = true ↔ m'.lock_count_ = 0)) ∧
    (∀ s ∈ (condition_wait_for t c rest ⟨t, -(d : Int)⟩).2.2.2,
        mutex_is_locked_unique_by_thread s t = true) ∧
    (∀ b ∈ (condition_wait_for t c rest ⟨t, -(d : Int)⟩).2.2.1, b = false) := by
  have hm0 : (unregister_unique_count ⟨t, -(d : Int)⟩).2 =
      (⟨t, -(d : Int) + 1⟩ : shared_recursive_mutex) := rfl
  have hkeeps := cv_wait_for_keeps_exclusive t c rest ⟨t, -(d : Int) + 1⟩ rfl
    (by show -(d : Int) + 1 ≤ -1; omega)
  have hcond : condition_wait_for t c rest ⟨t, -(d : Int)⟩ =
      ((if (cv_wait_for t c rest ⟨t, -(d : Int) + 1⟩).1 then wait_result.criteria_met
        else wait_result.timeout),
       (cv_wait_for t c rest ⟨t, -(d : Int) + 1⟩).2.1,
       (cv_wait_for t c rest ⟨t, -(d : Int) + 1⟩).2.2.1,
       (⟨t, -(d : Int) + 1⟩ : shared_recursive_mutex) ::
         (cv_wait_for t c rest ⟨t, -(d : Int) + 1⟩).2.2.2) := by
    simp [condition_wait_for, hm0]
  refine ⟨rfl, ?_, ?_, ?_⟩
  · intro m'
    refine ⟨rfl, ?_, ?_⟩
    · have hup : (waiting_predicate t false m').2.1 =
          (⟨t, m'.lock_count_ - 1 + 1⟩ : shared_recursive_mutex) := rfl
      rw [hup]
      show m'.lock_count_ - 1 + 1 = m'.lock_count_
      omega
    · have hntf : (waiting_predicate t false m').2.2.1 =
          decide (m'.lock_count_ - 1 + 1 = 0) := rfl
      rw [hntf]
      simp only [decide_eq_true_eq]
      omega
  · intro s hs
    rw [hcond] at hs
    rcases List.mem_cons.mp hs with rfl | hs
    · simp [mutex_is_locked_unique_by_thread, mutex_is_locked_unique]
      omega
    · exact hkeeps.1 s hs
  · intro b hb
    rw [hcond] at hb
    exact hkeeps.2.1 b hb

/-- Witness for claim C10 at depth 2 with a two-entry evaluation schedule. -/
theorem condition_wait_releases_one_level_witness :
    ((unregister_unique_count ⟨1, -(2 : Int)⟩).2.lock_count_ = -(2 : Int) + 1) ∧
    (∀ m' : shared_recursive_mutex,
        (waiting_predicate 1 true m').2.1.lock_count_ = m'.lock_count_ - 1 ∧
        (waiting_predicate 1 false m').2.1.lock_count_ = m'.lock_count_ ∧
        ((waiting_predicate 1 false m').2.2.1 = true ↔ m'.lock_count_ = 0)) ∧
    (∀ s ∈ (condition_wait_for 1 false [true] ⟨1, -(2 : Int)⟩).2.2.2,
        mutex_is_locked_unique_by_thread s 1 = true) ∧
    (∀ b ∈ (condition_wait_for 1 false [true] ⟨1, -(2 : Int)⟩).2.2.1, b = false) :=
  condition_wait_releases_one_level 1 2 (by decide) false [true]

/-!
## Owner: destructor and emplace
Embedding of `saam::basic_var` (`src/include/saam/detail/basic_var.ipp`,
also `src/include/saam/detail/basic_var.hpp`) over the counted strategy.

The destructor first runs the owned type's `pre_destructor` hook (when the
type has one) and only then asks the strategy to
`verify_dangling_references`.  The hook is user code; its effect on the
tracking state is the sequence of register/unregister calls it performs
(e.g. releasing self-views), passed in as `hook_ops`.
-/

/-- State of a `basic_var<T, counted_borrow_manager>`: the stable storage
address, the owned instance and the owner's own manager. -/
structure basic_var (α : Type) where
  addr : Nat
  instance_ : α
  borrow_manager_ : counted_borrow_manager

/-- `basic_var::~basic_var()`: run the pre-destruction hook (whose tracking
effect is `hook_ops`), then verify dangling references on the resulting
manager state. -/
def basic_var_dtor {α : Type} (hook_ops : List counted_event) (ty : Nat)
    (v : basic_var α) : counted_verify_outcome :=
  verify_dangling_references ty v.addr (counted_apply_all v.borrow_manager_ hook_ops)

/-- Claim C7: owner destruction invokes the pre-destruction hook first and
verifies outstanding views only afterwards; hence if the hook unregisters
the last outstanding view(s) — e.g. self-views — no violation is reported,
while a view still registered after the hook ran yields a violation with
the post-hook count. -/
theorem var_dtor_hook_before_verify {α : Type} (v : basic_var α)
    (hook_ops : List counted_event) (ty : Nat) :
    ((counted_apply_all v.borrow_manager_ hook_ops).counter_ = 0 →
        (basic_var_dtor hook_ops ty v).panic_call = none ∧
        (basic_var_dtor hook_ops ty v).aborted = false) ∧
    ((counted_apply_all v.borrow_manager_ hook_ops).counter_ ≠ 0 →
        (basic_var_dtor hook_ops ty v).panic_call =
          some ⟨ty, v.addr, (counted_apply_all v.borrow_manager_ hook_ops).counter_⟩ ∧
        (basic_var_dtor hook_ops ty v).aborted = true) := by
  constructor
  · intro h
    simp [basic_var_dtor, verify_dangling_references, h]
  · intro h
    simp [basic_var_dtor, verify_dangling_references, h]

/-- Witness for claim C7: an owner with one outstanding self-view; the hook
releasing it avoids the violation, while an empty hook yields it. -/
theorem var_dtor_hook_before_verify_witness :
    (((counted_apply_all (basic_var.mk 42 0 ⟨1⟩).borrow_manager_
          [counted_event.unregister]).counter_ = 0 →
        (basic_var_dtor [counted_event.unregister] 7 (basic_var.mk 42 (0 : Nat) ⟨1⟩)).panic_call =
          none ∧
        (basic_var_dtor [counted_event.unregister] 7 (basic_var.mk 42 (0 : Nat) ⟨1⟩)).aborted =
          false) ∧
     ((counted_apply_all (basic_var.mk 42 0 ⟨1⟩).borrow_manager_
          [counted_event.unregister]).counter_ ≠ 0 →
        (basic_var_dtor [counted_event.unregister] 7 (basic_var.mk 42 (0 : Nat) ⟨1⟩)).panic_call =
          some ⟨7, 42,
            (counted_apply_all (basic_var.mk 42 0 ⟨1⟩).borrow_manager_
              [counted_event.unregister]).counter_⟩ ∧
        (basic_var_dtor [counted_event.unregister] 7 (basic_var.mk 42 (0 : Nat) ⟨1⟩)).aborted =
          true)) ∧
    ((counted_apply_all (basic_var.mk 42 0 ⟨1⟩).borrow_manager_ []).counter_ = 0 →
        (basic_var_dtor [] 7 (basic_var.mk 42 (0 : Nat) ⟨1⟩)).panic_call = none ∧
        (basic_var_dtor [] 7 (basic_var.mk 42 (0 : Nat) ⟨1⟩)).aborted = false) ∧
    ((counted_apply_all (basic_var.mk 42 0 ⟨1⟩).borrow_manager_ []).counter_ ≠ 0 →
        (basic_var_dtor [] 7 (basic_var.mk 42 (0 : Nat) ⟨1⟩)).panic_call =
          some ⟨7, 42, (counted_apply_all (basic_var.mk 42 0 ⟨1⟩).borrow_manager_ []).counter_⟩ ∧
        (basic_var_dtor [] 7 (basic_var.mk 42 (0 : Nat) ⟨1⟩)).aborted = true) :=
  ⟨var_dtor_hook_before_verify (basic_var.mk 42 (0 : Nat) ⟨1⟩) [counted_event.unregister] 7,
   var_dtor_hook_before_verify (basic_var.mk 42 (0 : Nat) ⟨1⟩) [] 7⟩

/-- Result of `basic_var::emplace`: the owner afterwards and whether any
dangling-reference verification was performed during the call. -/
structure emplace_outcome (α : Type) where
  var' : basic_var α
  verify_performed : Bool

/-- `basic_var::emplace`: run the pre-destruction hook and the old
instance's destructor first — user code whose combined tracking effect
(e.g. views stored inside the old instance unregistering themselves) is the
event trace `dtor_ops` — then construct the new instance in the same
storage and run `call_post_constructor` (tracking effect `post_ops`, e.g. a
self-view minted and retained by the hook).  No dangling-reference
verification happens anywhere in the call. -/
def emplace {α : Type} (v : basic_var α) (new_instance : α)
    (dtor_ops post_ops : List counted_event) : emplace_outcome α :=
  ⟨⟨v.addr, new_instance,
     counted_apply_all (counted_apply_all v.borrow_manager_ dtor_ops) post_ops⟩, false⟩

/-- Claim C9 counterexample: an owner with outstanding count 2 — one
external view and one view the instance itself stores.  Emplace destroys
the old instance, whose stored view unregisters itself
(`dtor_ops = [unregister]`), so the outstanding count after emplace is 1,
not 2: the count is not unchanged and not every previously registered view
remains registered.  (Emplace itself still performs no verification.) -/
theorem emplace_count_changes_counterexample :
    (emplace (basic_var.mk 42 (0 : Nat) ⟨2⟩) 5 [counted_event.unregister]
        []).var'.borrow_manager_.counter_ = 1 ∧
    (basic_var.mk 42 (0 : Nat) ⟨2⟩).borrow_manager_.counter_ = 2 ∧
    (1 : Nat) ≠ 2 ∧
    (emplace (basic_var.mk 42 (0 : Nat) ⟨2⟩) 5 [counted_event.unregister]
        []).verify_performed = false :=
  ⟨rfl, rfl, by decide, rfl⟩

/-- Claim C9 (amended): emplace destroys the current instance (running the
pre-destruction hook first) and constructs the new one in the same storage
without ever invoking dangling-reference verification, so emplace itself
can report no violation; the storage address is unchanged, so surviving
views now refer to the new instance; the only tracking changes during the
call are the ones performed by the destroyed instance's own hook/destructor
and by the post-construction hook, so whenever those perform no tracking
events — in particular for owned types without hooks or stored views — the
outstanding-view count is unchanged and a later destruction behaves exactly
as it would have without the emplace. -/
theorem emplace_tracking_effects {α : Type} (v : basic_var α) (x : α)
    (dtor_ops post_ops : List counted_event) :
    (emplace v x dtor_ops post_ops).var'.addr = v.addr ∧
    (emplace v x dtor_ops post_ops).var'.instance_ = x ∧
    (emplace v x dtor_ops post_ops).verify_performed = false ∧
    (emplace v x dtor_ops post_ops).var'.borrow_manager_ =
      counted_apply_all (counted_apply_all v.borrow_manager_ dtor_ops) post_ops ∧
    (dtor_ops = [] → post_ops = [] →
      (emplace v x dtor_ops post_ops).var'.borrow_manager_ = v.borrow_manager_ ∧
      ∀ (hook_ops : List counted_event) (ty : Nat),
        basic_var_dtor hook_ops ty (emplace v x dtor_ops post_ops).var' =
          basic_var_dtor hook_ops ty v) := by
  refine ⟨rfl, rfl, rfl, rfl, ?_⟩
  rintro rfl rfl
  exact ⟨rfl, fun _ _ => rfl⟩

/-- Witness for claim C9 (amended) at a concrete owner whose hooks perform
no tracking events. -/
theorem emplace_tracking_effects_witness :
    (emplace (basic_var.mk 42 (0 : Nat) ⟨1⟩) 5 [] []).var'.addr =
      (basic_var.mk 42 (0 : Nat) ⟨1⟩).addr ∧
    (emplace (basic_var.mk 42 (0 : Nat) ⟨1⟩) 5 [] []).var'.instance_ = 5 ∧
    (emplace (basic_var.mk 42 (0 : Nat) ⟨1⟩) 5 [] []).verify_performed = false ∧
    (emplace (basic_var.mk 42 (0 : Nat) ⟨1⟩) 5 [] []).var'.borrow_manager_ =
      counted_apply_all
        (counted_apply_all (basic_var.mk 42 (0 : Nat) ⟨1⟩).borrow_manager_ []) [] ∧
    (([] : List counted_event) = [] → ([] : List counted_event) = [] →
      (emplace (basic_var.mk 42 (0 : Nat) ⟨1⟩) 5 [] []).var'.borrow_manager_ =
        (basic_var.mk 42 (0 : Nat) ⟨1⟩).borrow_manager_ ∧
      ∀ (hook_ops : List counted_event) (ty : Nat),
        basic_var_dtor hook_ops ty (emplace (basic_var.mk 42 (0 : Nat) ⟨1⟩) 5 [] []).var' =
          basic_var_dtor hook_ops ty (basic_var.mk 42 (0 : Nat) ⟨1⟩)) :=
  emplace_tracking_effects (basic_var.mk 42 (0 : Nat) ⟨1⟩) 5 [] []

/-!
## Unchecked borrow manager
Embedding of `saam::unchecked_borrow_manager`
(`src/include/saam/detail/unchecked_borrow_manager.hpp`).

The manager is stateless and `verify_dangling_references` is empty.  The
nested `ref_base` the view inherits from nevertheless still carries a
`borrow_manager_` pointer member; `is_managed` constantly returns false and
no operation ever calls into a manager.
-/

/-- `unchecked_borrow_manager` holds no state. -/
structure unchecked_borrow_manager where
deriving DecidableEq, Repr

/-- State of `unchecked_borrow_manager::ref_base`: the `borrow_manager_`
pointer member it declares (`none` = `nullptr`). -/
structure unchecked_ref_base where
  borrow_manager_ : Option Nat
deriving DecidableEq, Repr

/-- `unchecked_borrow_manager::ref_base::is_managed`: constantly false. -/
def unchecked_is_managed (_r : unchecked_ref_base) : Bool := false

/-- Result of the unchecked `verify_dangling_references`: whether the panic
hook was invoked and whether the process aborted. -/
structure unchecked_verify_outcome where
  panic_invoked : Bool
  aborted : Bool
deriving DecidableEq, Repr

/-- `unchecked_borrow_manager::verify_dangling_references`: an empty body. -/
def unchecked_verify_dangling_references (_ty : Nat) : unchecked_verify_outcome :=
  ⟨false, false⟩

/-- State of a `basic_ref<T, unchecked_borrow_manager>`: the view's
`instance_` pointer plus the inherited `ref_base`. -/
structure unchecked_ref where
  instance_ : Option Nat
  base : unchecked_ref_base
deriving DecidableEq, Repr

/-- Unchecked view copy construction (defaulted `ref_base` copy): a plain
state copy, no manager calls. -/
def unchecked_ref_copy (other : unchecked_ref) : unchecked_ref × List mgr_op :=
  (⟨other.instance_, other.base⟩, [])

/-- Unchecked view move construction: the destination takes both pointers,
the source's pointers are nulled, no manager calls. -/
def unchecked_ref_move_ctor (other : unchecked_ref) :
    unchecked_ref × unchecked_ref × List mgr_op :=
  (⟨other.instance_, other.base⟩, ⟨none, ⟨none⟩⟩, [])

/-- Unchecked view destruction (defaulted destructor): no manager calls. -/
def unchecked_ref_dtor (_r : unchecked_ref) : List mgr_op := []

/-- Claim C8 counterexample: the unchecked view is not a single pointer.
Its inherited `ref_base` declares a `borrow_manager_` pointer member, so two
views can agree on the instance pointer yet differ in state — impossible if
the view carried no field beyond the instance pointer. -/
theorem unchecked_ref_extra_field_counterexample :
    unchecked_ref.mk (some 5) ⟨none⟩ ≠ unchecked_ref.mk (some 5) ⟨some 3⟩ ∧
    (unchecked_ref.mk (some 5) ⟨none⟩).instance_ =
      (unchecked_ref.mk (some 5) ⟨some 3⟩).instance_ := by
  decide

/-- Claim C8 (amended): under the unchecked strategy every tracking
operation is a no-op — view copy, move and destruction perform no manager
operation, `is_managed` is constantly false, and verification at owner
destruction never invokes the panic hook and never aborts, regardless of
how many views exist; however the view still carries the inert
`borrow_manager_` pointer field of its `ref_base` in addition to the
instance pointer (so an instance pointer plus one pointer-sized field, not
a bare single pointer). -/
theorem unchecked_manager_noop :
    (∀ ty : Nat, unchecked_verify_dangling_references ty = ⟨false, false⟩) ∧
    (∀ other : unchecked_ref,
        unchecked_ref_copy other = (⟨other.instance_, other.base⟩, []) ∧
        unchecked_ref_move_ctor other = (⟨other.instance_, other.base⟩, ⟨none, ⟨none⟩⟩, [])) ∧
    (∀ r : unchecked_ref, unchecked_ref_dtor r = []) ∧
    (∀ rb : unchecked_ref_base, unchecked_is_managed rb = false) ∧
    (∀ (w : mgr_world) (other : unchecked_ref),
        apply_mgr_ops w (unchecked_ref_copy other).2 = w ∧
        apply_mgr_ops w (unchecked_ref_move_ctor other).2.2 = w) :=
  ⟨fun _ => rfl, fun _ => ⟨rfl, rfl⟩, fun _ => rfl, fun _ => rfl, fun _ _ => ⟨rfl, rfl⟩⟩

end Saam
